import Mathlib

/-!
Shallow embedding of the `mcp-stdio-http-bridge` crate: the transport
failure classification (`remote_transport.rs`), the SSE decoder
(`parse_sse_to_json_lines`), the stdin reader's line handling
(`stdio.rs`), and the message pump / retry engine (`bridge.rs`).

External effects (the HTTP client, tokio channels, timers) are made
explicit: one HTTP exchange is an abstract outcome value, the pump is
driven by a per-message script of attempt outcomes together with the
result of each cancellable backoff wait, and the outbound channel is the
list of lines sent to it.
-/

namespace Bridge

/-- Abstraction of `reqwest::Error`: the three predicates the bridge
consults (`is_connect`, `is_timeout`, `is_request`) plus its display
text, which only feeds error messages. -/
structure NetworkError where
  is_connect : Bool
  is_timeout : Bool
  is_request : Bool
  msg : String
deriving DecidableEq, Repr

/-- The type `TransportError` from `remote_transport.rs`: a network (reqwest)
error, invalid UTF-8 in the response body, or a local I/O error
(carrying its display text). -/
inductive TransportError where
  | Network (e : NetworkError)
  | InvalidUtf8
  | IoErr (msg : String)
deriving DecidableEq, Repr

/-- The `Display` impl for `TransportError`. -/
def TransportError.describe : TransportError → String
  | .Network e => "network: " ++ e.msg
  | .InvalidUtf8 => "invalid UTF-8 in response"
  | .IoErr m => "io: " ++ m

/-- Function `is_retryable` from `remote_transport.rs`: a network error is
retryable when it is a connect, timeout or request-formation failure;
invalid UTF-8 and local I/O errors never are. -/
def is_retryable : TransportError → Bool
  | .Network err => err.is_connect || err.is_timeout || err.is_request
  | .InvalidUtf8 => false
  | .IoErr _ => false

/-- Character-level split on the newline character; always yields one
more piece than there are newlines (structural counterpart of the split
underlying Rust `str::lines`). -/
def splitNl : List Char → List (List Char)
  | [] => [[]]
  | c :: cs =>
    if c = '\n' then [] :: splitNl cs
    else
      match splitNl cs with
      | [] => [[c]]
      | p :: ps => (c :: p) :: ps

/-- Strip one carriage return at the end of a line body, as Rust
`str::lines` does for lines terminated by a CRLF sequence. -/
def stripCr (l : List Char) : List Char :=
  if l.getLast? = some '\r' then l.dropLast else l

/-- Rust `str::lines` on the split pieces: every piece but the last was
newline-terminated, so its trailing carriage return is stripped; a final
empty piece (text ending in a newline) yields no line; a final non-empty
piece is yielded as-is. -/
def rustLinesAux : List (List Char) → List (List Char)
  | [] => []
  | [last] => if last = [] then [] else [last]
  | p :: q :: rest => stripCr p :: rustLinesAux (q :: rest)

/-- Rust `str::lines`, assembled. -/
def rustLines (s : String) : List String :=
  if s.data = [] then []
  else (rustLinesAux (splitNl s.data)).map String.mk

/-- Drop the first `n` characters of a string. On a line that passed the
ASCII marker check `data:`, dropping 5 characters coincides with the
Rust byte slice `line[5..]`. -/
def strDrop (s : String) (n : Nat) : String :=
  String.mk (s.data.drop n)

/-- Rust `str::starts_with` over the character list. -/
def strStartsWith (s pat : String) : Bool :=
  pat.data.isPrefixOf s.data

/-- Rust `str::trim` (restricted to the ASCII whitespace the bridge's
payloads use): whitespace characters removed from both ends. -/
def strTrim (s : String) : String :=
  String.mk (((s.data.dropWhile Char.isWhitespace).reverse.dropWhile
    Char.isWhitespace).reverse)

/-- The line loop of `parse_sse_to_json_lines`, with the per-event
accumulation buffer explicit: a `data:` line has its value (after the
marker) trimmed; the sentinel value `[DONE]` is skipped; other values
are appended to the buffer, joined with a newline when the buffer is
non-empty; a blank line flushes a non-empty buffer as one output; a
leftover buffer at end of input is flushed once. -/
def sseLoop : List String → String → List String
  | [], buf => if buf = "" then [] else [buf]
  | line :: rest, buf =>
    if strStartsWith line "data:" then
      let r := strTrim (strDrop line 5)
      if r = "[DONE]" then sseLoop rest buf
      else if buf = "" then sseLoop rest r
      else sseLoop rest (buf ++ "\n" ++ r)
    else if strTrim line = "" then
      if buf = "" then sseLoop rest buf
      else buf :: sseLoop rest ""
    else sseLoop rest buf

/-- Function `parse_sse_to_json_lines` from `remote_transport.rs`. -/
def parse_sse_to_json_lines (s : String) : List String :=
  sseLoop (rustLines s) ""

/-- Newline join of a list of payload fragments, as produced by the SSE
buffer accumulation. -/
def joinNl : List String → String
  | [] => ""
  | [x] => x
  | x :: y :: xs => x ++ "\n" ++ joinNl (y :: xs)

/-- The per-line handling of `stdin_reader` in `stdio.rs`:
`line.trim_end_matches(newline).trim_end_matches(cr)`, then discard the
line when the result is empty, otherwise forward the result. -/
def dropTrailing (c : Char) (s : String) : String :=
  String.mk ((s.data.reverse.dropWhile (fun d => d = c)).reverse)

/-- One raw input line through `stdin_reader`: `none` when the line is
discarded, `some t` when `t` is forwarded to the inbound queue. -/
def processInputLine (raw : String) : Option String :=
  let trimmed := dropTrailing '\r' (dropTrailing '\n' raw)
  if trimmed = "" then none else some trimmed

/-- Function `stdin_reader` over a finite list of raw input lines: the sequence
forwarded to the inbound queue, in arrival order. -/
def stdin_reader (raws : List String) : List String :=
  raws.filterMap processInputLine

/-- Substring containment over character lists: the needle is a prefix
of some suffix of the haystack (Rust `str::contains`). -/
def listContainsSub : List Char → List Char → Bool
  | [], pat => pat.isPrefixOf ([] : List Char)
  | c :: cs, pat => pat.isPrefixOf (c :: cs) || listContainsSub cs pat

/-- Rust `str::contains` with a string needle. -/
def rustContains (s pat : String) : Bool :=
  listContainsSub s.data pat.data

/-- One HTTP exchange as the pump sees it: the send or the body read
failed with a reqwest error, or a response arrived with a status, a
`Content-Type` header value (empty when absent), and the UTF-8 decoding
of its body bytes (`none` when the bytes are not valid UTF-8). -/
inductive HttpOutcome where
  | sendErr (e : NetworkError)
  | bodyErr (e : NetworkError)
  | response (status : Nat) (contentType : String) (bodyUtf8 : Option String)

/-- Function `send_message` from `remote_transport.rs`, past the construction of
the request: a failed send or body read is a `Network` error; a 202
status yields no payloads before the body is even decoded; an
undecodable body is `InvalidUtf8`; a blank body yields no payloads; an
event-stream body is decoded by the SSE parser; any other body is the
single payload, verbatim. -/
def send_message : HttpOutcome → Except TransportError (List String)
  | .sendErr e => .error (.Network e)
  | .bodyErr e => .error (.Network e)
  | .response status contentType bodyUtf8 =>
    if status = 202 then .ok []
    else
      match bodyUtf8 with
      | none => .error .InvalidUtf8
      | some body =>
        if strTrim body = "" then .ok []
        else if rustContains contentType "text/event-stream" then
          .ok (parse_sse_to_json_lines body)
        else .ok [body]

/-- Constant `INITIAL_BACKOFF_MS` from `bridge.rs` (milliseconds). -/
def INITIAL_BACKOFF_MS : Nat := 500

/-- The synthetic error envelope the pump sends when shutdown preempts a
backoff wait (`bridge.rs`, the shutdown arm of the select). -/
def shutdownEnvelopeLine : String :=
  "\x7b\"jsonrpc\":\"2.0\",\"error\":\x7b\"code\":-32603,\"message\":\"bridge shutdown during retry\"\x7d\x7d"

/-- The synthetic error envelope the pump sends on a non-retryable
transport error (`bridge.rs`, the fatal arm), parameterized by the
error's display text. -/
def fatalEnvelopeLine (desc : String) : String :=
  "\x7b\"jsonrpc\":\"2.0\",\"error\":\x7b\"code\":-32603,\"message\":\"bridge transport error: "
    ++ desc ++ "\"\x7d\x7d"

/-- Result of one `send_message` call, as the pump's match sees it. -/
inductive AttemptResult where
  | ok (payloads : List String)
  | err (e : TransportError)

/-- Outcome of the cancellable backoff wait: the sleep timer completed,
or the shutdown signal fired first. -/
inductive WaitResult where
  | sleepDone
  | shutdownFired

/-- How the processing of one message left the pump: the message is done
(success or fatal abandonment) and the pump moves on; the pump halted
(shutdown during retry); or the finite attempt script ran out while the
unbounded retry loop was still going. -/
inductive MsgEnd where
  | done
  | halt
  | outOfScript
deriving DecidableEq, Repr

/-- What processing one message produced: the lines sent to the
outbound queue, the backoff wait durations slept through, the value of
`backoff_ms` afterwards, and how the processing ended. -/
structure ProcResult where
  out : List String
  waits : List Nat
  backoff : Nat
  status : MsgEnd
deriving DecidableEq, Repr

/-- The inner retry loop of `run_bridge` for one message, driven by a
finite script of attempt outcomes paired with the result of the backoff
wait that follows a retryable failure. On success `backoff_ms` is reset
to the initial value and the payloads are emitted; on a retryable
failure the pump sleeps the current backoff (recorded in `waits`) and
doubles it, capped at the ceiling `maxBackoff`, unless shutdown preempts
the wait, in which case one shutdown envelope is emitted and the pump
halts; on a fatal failure one fatal envelope is emitted and the message
is abandoned with `backoff_ms` unchanged. -/
def processMsg (maxBackoff : Nat) :
    List (AttemptResult × WaitResult) → Nat → ProcResult
  | [], b => ⟨[], [], b, .outOfScript⟩
  | (a, w) :: rest, b =>
    match a with
    | .ok payloads => ⟨payloads, [], INITIAL_BACKOFF_MS, .done⟩
    | .err e =>
      if is_retryable e then
        match w with
        | .shutdownFired => ⟨[shutdownEnvelopeLine], [], b, .halt⟩
        | .sleepDone =>
          let r := processMsg maxBackoff rest (min (b * 2) maxBackoff)
          ⟨r.out, b :: r.waits, r.backoff, r.status⟩
      else ⟨[fatalEnvelopeLine e.describe], [], b, .done⟩

/-- One queued message as the pump sees it: whether `shutdown.try_recv()`
reports the signal already fired when the message is dequeued, and the
script driving its retry loop. -/
structure MsgScript where
  shutdownAtStart : Bool
  attempts : List (AttemptResult × WaitResult)

/-- The outer loop of `run_bridge`: the flat sequence of lines sent to
the outbound queue, over a queue of messages, threading `backoff_ms`
from one message to the next exactly as the mutable variable in the
code. A message dequeued after shutdown fired is dropped and the pump
stops; a halted retry loop stops the pump; an exhausted script models a
retry loop still running, so no later message is reached. -/
def runBridgeFlat (maxBackoff : Nat) : List MsgScript → Nat → List String
  | [], _ => []
  | m :: rest, b =>
    if m.shutdownAtStart then []
    else
      let r := processMsg maxBackoff m.attempts b
      match r.status with
      | .done => r.out ++ runBridgeFlat maxBackoff rest r.backoff
      | .halt => r.out
      | .outOfScript => r.out

/-- The same run grouped per processed message: element `i` is the block
of output lines belonging to message `i`. -/
def runBridgeBlocks (maxBackoff : Nat) : List MsgScript → Nat → List (List String)
  | [], _ => []
  | m :: rest, b =>
    if m.shutdownAtStart then []
    else
      let r := processMsg maxBackoff m.attempts b
      match r.status with
      | .done => r.out :: runBridgeBlocks maxBackoff rest r.backoff
      | .halt => [r.out]
      | .outOfScript => [r.out]

/-- The same run with the backoff waits grouped per processed message:
element `i` is the sequence of wait durations slept while retrying
message `i`. -/
def runBridgeWaits (maxBackoff : Nat) : List MsgScript → Nat → List (List Nat)
  | [], _ => []
  | m :: rest, b =>
    if m.shutdownAtStart then []
    else
      let r := processMsg maxBackoff m.attempts b
      match r.status with
      | .done => r.waits :: runBridgeWaits maxBackoff rest r.backoff
      | .halt => [r.waits]
      | .outOfScript => [r.waits]

/-- A sample retryable network error (a connection failure), used to
instantiate theorems on concrete inputs. -/
def sampleConnError : NetworkError :=
  ⟨true, false, false, "connection refused"⟩

/-- Appending to a non-empty string yields a non-empty string. -/
theorem append_ne_empty_left (s t : String) (h : s ≠ "") : s ++ t ≠ "" := by
  intro he
  apply h
  have hd := congrArg String.data he
  simp [String.data_append] at hd
  exact String.ext hd.1

/-- Joining one more fragment into a non-empty buffer commutes with the
newline join. -/
theorem joinNl_append_head (a c : String) (xs : List String) :
    joinNl ((a ++ "\n" ++ c) :: xs) = a ++ "\n" ++ joinNl (c :: xs) := by
  cases xs with
  | nil => simp [joinNl]
  | cons y ys => simp [joinNl, String.append_assoc]

end Bridge

namespace Bridge

/-- C6: a transport error is retryable exactly when it is a network
error flagged as a connection failure, a timeout, or a request-formation
failure; invalid UTF-8 and local I/O errors are never retryable. -/
theorem C6_failure_classification (e : TransportError) :
    is_retryable e = true ↔
      ∃ n : NetworkError, e = .Network n ∧
        (n.is_connect = true ∨ n.is_timeout = true ∨ n.is_request = true) := by
  cases e with
  | Network n => simp [is_retryable, Bool.or_eq_true, or_assoc]
  | InvalidUtf8 => simp [is_retryable]
  | IoErr m => simp [is_retryable]

/-- C1: the flat sequence of lines the pump sends to the outbound queue
is exactly the concatenation of the per-message output blocks, in
message order: every line belonging to message `i` is sent before any
line belonging to message `i+1`, and the pump processes one message at
a time. -/
theorem C1_output_order (maxBackoff : Nat) (ms : List MsgScript) (b : Nat) :
    runBridgeFlat maxBackoff ms b = (runBridgeBlocks maxBackoff ms b).flatten := by
  induction ms generalizing b with
  | nil => rfl
  | cons m rest ih =>
    by_cases hs : m.shutdownAtStart
    · simp [runBridgeFlat, runBridgeBlocks, hs]
    · simp only [runBridgeFlat, runBridgeBlocks, hs, if_neg, Bool.false_eq_true,
        if_false]
      cases h : (processMsg maxBackoff m.attempts b).status <;> simp [h, ih]

/-- C3 counterexample: the raw input line consisting of one space and a
newline is whitespace-only, yet the reader forwards it (as the one-space
string) instead of discarding it. -/
theorem C3_counterexample :
    stdin_reader [" \n"] = [" "] ∧ stdin_reader [" \n"] ≠ [] := by
  constructor
  · decide
  · decide

/-- C3 amended: the reader discards exactly the lines that are empty
after stripping trailing newline and carriage-return characters — such
a line is never forwarded to the inbound queue — and every line it does
forward is non-empty; whitespace such as spaces or tabs does not make a
line blank. -/
theorem C3_blank_line_discard :
    (∀ (pre post : List String) (l : String),
        dropTrailing '\r' (dropTrailing '\n' l) = "" →
        stdin_reader (pre ++ l :: post) = stdin_reader (pre ++ post)) ∧
    (∀ (raws : List String) (t : String), t ∈ stdin_reader raws → t ≠ "") := by
  constructor
  · intro pre post l h
    simp [stdin_reader, List.filterMap_append, List.filterMap_cons,
      processInputLine, h]
  · intro raws t ht
    rw [stdin_reader, List.mem_filterMap] at ht
    obtain ⟨raw, _, hr⟩ := ht
    unfold processInputLine at hr
    by_cases hc : dropTrailing '\r' (dropTrailing '\n' raw) = ""
    · simp [hc] at hr
    · simp only [hc, if_neg, if_false] at hr
      cases hr
      exact hc

/-- Witness for the amended C3 on a concrete input sequence. -/
theorem C3_blank_line_discard_witness :
    stdin_reader (["a\n"] ++ "\r\n" :: ["b\n"]) = stdin_reader (["a\n"] ++ ["b\n"]) :=
  C3_blank_line_discard.1 ["a\n"] ["b\n"] "\r\n" (by decide)

/-- C9: a data line whose trimmed value is the `[DONE]` sentinel is
discarded wherever it occurs — removing it from the line sequence does
not change the decoder's output for any buffer state — and the body
consisting of `data: [DONE]` followed by a blank line decodes to zero
payloads. -/
theorem C9_done_sentinel_discarded :
    (∀ (pre post : List String) (l buf : String),
        strStartsWith l "data:" = true →
        strTrim (strDrop l 5) = "[DONE]" →
        sseLoop (pre ++ l :: post) buf = sseLoop (pre ++ post) buf) ∧
    parse_sse_to_json_lines "data: [DONE]\n\n" = [] := by
  constructor
  · intro pre post l buf h1 h2
    induction pre generalizing buf with
    | nil => simp [sseLoop, h1, h2]
    | cons p pre ih =>
      simp only [List.cons_append, sseLoop]
      split_ifs <;> simp [ih]
  · decide

/-- Witness for C9 on a concrete line sequence and buffer. -/
theorem C9_done_sentinel_discarded_witness :
    sseLoop (["data: A"] ++ "data: [DONE]" :: [""]) ""
      = sseLoop (["data: A"] ++ [""]) "" :=
  C9_done_sentinel_discarded.1 ["data: A"] [""] "data: [DONE]" ""
    (by decide) (by decide)

/-- Running the decoder through a run of data lines whose values are
non-blank and not the sentinel, with a non-empty buffer, up to the blank
line ending the event: the event flushes as the newline join of the
buffer and the values, and decoding continues on the remaining lines
with an empty buffer. -/
theorem sseLoop_data_run (ls : List String) :
    ∀ (b : String) (rest : List String), b ≠ "" →
      (∀ l ∈ ls, strStartsWith l "data:" = true ∧
          strTrim (strDrop l 5) ≠ "[DONE]" ∧ strTrim (strDrop l 5) ≠ "") →
      sseLoop (ls ++ [""] ++ rest) b
        = joinNl (b :: ls.map (fun l => strTrim (strDrop l 5))) :: sseLoop rest "" := by
  induction ls with
  | nil =>
    intro b rest hb _
    simp [sseLoop, hb, joinNl, strStartsWith, strTrim]
  | cons l ls ih =>
    intro b rest hb h
    obtain ⟨h1, h2, h3⟩ := h l (by simp)
    simp only [List.cons_append, sseLoop, h1, if_true, h2, hb, if_neg, if_false,
      List.append_eq]
    rw [ih (b ++ "\n" ++ strTrim (strDrop l 5)) rest
        (append_ne_empty_left _ _ (append_ne_empty_left _ _ hb))
        (fun x hx => h x (by simp [hx])),
      List.map_cons, joinNl_append_head]
    rfl

/-- C8 counterexample: the body `data:\ndata: B\n\n` has one event with
two consecutive data-prefixed lines (trimmed values the empty string and
`B`) before the blank line, but the decoder outputs `B`, not the
newline join `\nB` of the two trimmed values. -/
theorem C8_counterexample :
    parse_sse_to_json_lines "data:\ndata: B\n\n" = ["B"] ∧
      ("B" : String) ≠ "\nB" := by
  constructor
  · decide
  · decide

/-- C8 amended: for a run of two or more consecutive data-prefixed
lines, each with a non-blank trimmed value different from the `[DONE]`
sentinel, ending at a blank line, the decoder (started with an empty
buffer) produces a single payload for that event, equal to the lines'
trimmed values joined by newlines in order, and then continues with the
remaining lines. Blank values are skipped while the buffer is empty and
sentinel values are always skipped, so those lines are excluded. -/
theorem C8_multiline_event_join (l : String) (ls rest : List String)
    (h : ∀ x ∈ l :: ls, strStartsWith x "data:" = true ∧
        strTrim (strDrop x 5) ≠ "[DONE]" ∧ strTrim (strDrop x 5) ≠ "") :
    sseLoop ((l :: ls) ++ [""] ++ rest) ""
      = joinNl ((l :: ls).map (fun x => strTrim (strDrop x 5))) :: sseLoop rest "" := by
  obtain ⟨h1, h2, h3⟩ := h l (by simp)
  simp only [List.cons_append, sseLoop, h1, if_true, h2, if_neg, if_false,
    List.append_eq]
  rw [sseLoop_data_run ls (strTrim (strDrop l 5)) rest h3
      (fun x hx => h x (by simp [hx])),
    List.map_cons]

/-- Witness for the amended C8 on a concrete two-line event. -/
theorem C8_multiline_event_join_witness :
    sseLoop (["data: A", "data: B"] ++ [""] ++ []) ""
      = joinNl (["data: A", "data: B"].map (fun x => strTrim (strDrop x 5)))
          :: sseLoop [] "" :=
  C8_multiline_event_join "data: A" ["data: B"] [] (by decide)

/-- C5: a fatal (non-retryable) failure makes the pump emit exactly the
one fatal envelope for this message, with no backoff wait and no use of
any further attempt of that message (no retry), leaving the backoff
unchanged and ending the message; the pump then continues with the
remaining queued messages. -/
theorem C5_fatal_failure (maxBackoff b : Nat) (e : TransportError)
    (w : WaitResult) (restA : List (AttemptResult × WaitResult))
    (ms : List MsgScript) (hf : is_retryable e = false) :
    processMsg maxBackoff ((.err e, w) :: restA) b
        = ⟨[fatalEnvelopeLine e.describe], [], b, .done⟩ ∧
    runBridgeFlat maxBackoff (⟨false, (.err e, w) :: restA⟩ :: ms) b
        = fatalEnvelopeLine e.describe :: runBridgeFlat maxBackoff ms b := by
  constructor
  · simp [processMsg, hf]
  · simp [runBridgeFlat, processMsg, hf]

/-- Witness for C5: a local I/O failure on the first attempt of the
first of two messages. -/
theorem C5_fatal_failure_witness :
    processMsg 30000 [(.err (.IoErr "broken pipe"), .sleepDone)] 500
        = ⟨[fatalEnvelopeLine (TransportError.IoErr "broken pipe").describe],
            [], 500, .done⟩ ∧
    runBridgeFlat 30000
        [⟨false, [(.err (.IoErr "broken pipe"), .sleepDone)]⟩,
         ⟨false, [(.ok ["next"], .sleepDone)]⟩] 500
      = fatalEnvelopeLine (TransportError.IoErr "broken pipe").describe
          :: runBridgeFlat 30000 [⟨false, [(.ok ["next"], .sleepDone)]⟩] 500 :=
  C5_fatal_failure 30000 500 (.IoErr "broken pipe") .sleepDone []
    [⟨false, [(.ok ["next"], .sleepDone)]⟩] (by decide)

/-- A halted retry loop produced exactly the one shutdown envelope: no
payload line and no other envelope accompanies it. -/
theorem processMsg_halt_out (maxBackoff : Nat) :
    ∀ (attempts : List (AttemptResult × WaitResult)) (b : Nat),
      (processMsg maxBackoff attempts b).status = .halt →
      (processMsg maxBackoff attempts b).out = [shutdownEnvelopeLine] := by
  intro attempts
  induction attempts with
  | nil => intro b h; simp [processMsg] at h
  | cons aw rest ih =>
    intro b h
    obtain ⟨a, w⟩ := aw
    cases a with
    | ok ps => simp [processMsg] at h
    | err e =>
      by_cases hr : is_retryable e
      · cases w with
        | shutdownFired => simp [processMsg, hr]
        | sleepDone =>
          simp only [processMsg, hr, if_true] at h ⊢
          exact ih (min (b * 2) maxBackoff) h
      · simp [processMsg, hr] at h

/-- C4: when shutdown preempts a backoff wait while the pump is
retrying the current message, the entire remaining pump output is the
single shutdown envelope — carrying the message text "bridge shutdown
during retry" — and no further queued message is processed. -/
theorem C4_shutdown_during_retry (maxBackoff b : Nat) (m : MsgScript)
    (rest : List MsgScript) (h0 : m.shutdownAtStart = false)
    (h : (processMsg maxBackoff m.attempts b).status = .halt) :
    runBridgeFlat maxBackoff (m :: rest) b = [shutdownEnvelopeLine] := by
  have hout := processMsg_halt_out maxBackoff m.attempts b h
  simp [runBridgeFlat, h0, h, hout]

/-- Witness for C4: shutdown fires during the first backoff wait of the
first of two queued messages. -/
theorem C4_shutdown_during_retry_witness :
    runBridgeFlat 30000
        [⟨false, [(.err (.Network sampleConnError), .shutdownFired)]⟩,
         ⟨false, [(.ok ["next"], .sleepDone)]⟩] 500
      = [shutdownEnvelopeLine] :=
  C4_shutdown_during_retry 30000 500
    ⟨false, [(.err (.Network sampleConnError), .shutdownFired)]⟩
    [⟨false, [(.ok ["next"], .sleepDone)]⟩] (by decide) (by decide)

/-- C2 counterexample: message 1 suffers one retryable failure (wait
500 ms, backoff doubled to 1000) and is then abandoned by a fatal
failure; message 2's first retryable failure waits 1000 ms, not the
initial 500 ms — the backoff state is carried from message 1 into
message 2. -/
theorem C2_counterexample :
    runBridgeWaits 30000
        [⟨false, [(.err (.Network sampleConnError), .sleepDone),
                  (.err .InvalidUtf8, .sleepDone)]⟩,
         ⟨false, [(.err (.Network sampleConnError), .sleepDone),
                  (.ok [], .sleepDone)]⟩]
        INITIAL_BACKOFF_MS
      = [[500], [1000]] ∧ (1000 : Nat) ≠ INITIAL_BACKOFF_MS := by
  constructor
  · decide
  · decide

/-- C2 amended: the backoff is reset to the initial 500 ms by every
success, and a message's first backoff wait equals the backoff value in
force when the message's processing begins; but a fatal abandonment
leaves the backoff unchanged, so the state IS carried into a later
message whenever the previous message ended in a fatal failure after
retryable failures had inflated it. -/
theorem C2_backoff_reset_rules :
    (∀ (maxBackoff b : Nat) (ps : List String) (w : WaitResult)
        (rest : List (AttemptResult × WaitResult)),
        (processMsg maxBackoff ((.ok ps, w) :: rest) b).backoff
          = INITIAL_BACKOFF_MS) ∧
    (∀ (maxBackoff b : Nat) (e : TransportError) (w : WaitResult)
        (rest : List (AttemptResult × WaitResult)),
        is_retryable e = false →
        (processMsg maxBackoff ((.err e, w) :: rest) b).backoff = b) ∧
    (∀ (maxBackoff b : Nat) (e : TransportError)
        (rest : List (AttemptResult × WaitResult)),
        is_retryable e = true →
        (processMsg maxBackoff ((.err e, .sleepDone) :: rest) b).waits.head?
          = some b) := by
  refine ⟨?_, ?_, ?_⟩
  · intro maxBackoff b ps w rest
    simp [processMsg]
  · intro maxBackoff b e w rest hf
    simp [processMsg, hf]
  · intro maxBackoff b e rest hr
    simp [processMsg, hr]

/-- Witness for the amended C2: a message starting with an inflated
backoff of 1000 ms first waits 1000 ms. -/
theorem C2_backoff_reset_rules_witness :
    (processMsg 30000 [(.err (.Network sampleConnError), .sleepDone)]
        1000).waits.head? = some 1000 :=
  C2_backoff_reset_rules.2.2 30000 1000 (.Network sampleConnError) []
    (by decide)

/-- The sequence of backoff waits produced by consecutive retryable
failures starting from backoff `b`: each wait sleeps the current value,
which is then doubled and capped at the ceiling. -/
def backoffSeq (maxBackoff : Nat) : Nat → Nat → List Nat
  | _, 0 => []
  | b, n + 1 => b :: backoffSeq maxBackoff (min (b * 2) maxBackoff) n

/-- A message script of `N` retryable failures followed by a success
sleeps exactly the backoff sequence from its entry backoff, and leaves
the backoff reset to the initial value. -/
theorem processMsg_replicate_waits (maxBackoff : Nat) (e : TransportError)
    (ps : List String) (w : WaitResult) (he : is_retryable e = true) :
    ∀ (N b : Nat),
      (processMsg maxBackoff
          (List.replicate N (.err e, .sleepDone) ++ [(.ok ps, w)]) b).waits
        = backoffSeq maxBackoff b N ∧
      (processMsg maxBackoff
          (List.replicate N (.err e, .sleepDone) ++ [(.ok ps, w)]) b).backoff
        = INITIAL_BACKOFF_MS := by
  intro N
  induction N with
  | zero => intro b; simp [processMsg, backoffSeq]
  | succ n ih =>
    intro b
    simp only [List.replicate_succ, List.cons_append, processMsg, he, if_true,
      backoffSeq]
    exact ⟨by simp [(ih (min (b * 2) maxBackoff)).1],
      by simp [(ih (min (b * 2) maxBackoff)).2]⟩

/-- Closed form of the backoff sequence once the cap has been applied at
least once: every later wait is the doubled power, capped. -/
theorem backoffSeq_capped (maxBackoff : Nat) :
    ∀ (N j : Nat),
      backoffSeq maxBackoff (min (2 ^ (j + 1) * INITIAL_BACKOFF_MS) maxBackoff) N
        = (List.range N).map
            (fun i => min (2 ^ (j + 1 + i) * INITIAL_BACKOFF_MS) maxBackoff) := by
  intro N
  induction N with
  | zero => intro j; simp [backoffSeq]
  | succ n ih =>
    intro j
    rw [List.range_succ_eq_map]
    simp only [backoffSeq, List.map_cons, List.map_map]
    have hcap : min (min (2 ^ (j + 1) * INITIAL_BACKOFF_MS) maxBackoff * 2)
        maxBackoff = min (2 ^ (j + 1 + 1) * INITIAL_BACKOFF_MS) maxBackoff := by
      have hpow : 2 ^ (j + 1 + 1) * INITIAL_BACKOFF_MS
          = 2 ^ (j + 1) * INITIAL_BACKOFF_MS * 2 := by ring
      rw [hpow]
      omega
    rw [hcap, ih (j + 1)]
    refine congrArg₂ _ (by simp) ?_
    refine List.map_congr_left ?_
    intro i _
    have : j + 1 + 1 + i = j + 1 + (i + 1) := by omega
    simp [Function.comp, this]

/-- The full backoff sequence from the initial value: the first wait is
the initial 500 ms, and wait `i` (for `i ≥ 1`) is `2^i` times the
initial value, capped at the ceiling. -/
theorem backoffSeq_from_initial (maxBackoff : Nat) (N : Nat) :
    backoffSeq maxBackoff INITIAL_BACKOFF_MS N
      = (List.range N).map
          (fun i => if i = 0 then INITIAL_BACKOFF_MS
            else min (2 ^ i * INITIAL_BACKOFF_MS) maxBackoff) := by
  cases N with
  | zero => simp [backoffSeq]
  | succ n =>
    rw [List.range_succ_eq_map]
    simp only [backoffSeq, List.map_cons, List.map_map, if_pos rfl]
    have h1 : min (INITIAL_BACKOFF_MS * 2) maxBackoff
        = min (2 ^ (0 + 1) * INITIAL_BACKOFF_MS) maxBackoff := by
      norm_num [INITIAL_BACKOFF_MS, Nat.mul_comm]
    rw [h1, backoffSeq_capped maxBackoff n 0]
    refine congrArg₂ _ rfl ?_
    refine List.map_congr_left ?_
    intro i _
    simp [Function.comp, Nat.add_comm]

/-- C7: starting from the initial backoff, a message that suffers `N`
consecutive retryable failures and then succeeds waits the durations
initial, 2×initial, 4×initial, …, each wait after the first being
capped at the ceiling (the cap is applied after the doubling); the
success resets the backoff to the initial value, so the next retryable
failure — of this or any later message — first waits the initial
duration again. -/
theorem C7_backoff_doubling (maxBackoff N : Nat) (e : TransportError)
    (ps : List String) (w : WaitResult) (he : is_retryable e = true) :
    (processMsg maxBackoff
        (List.replicate N (.err e, .sleepDone) ++ [(.ok ps, w)])
        INITIAL_BACKOFF_MS).waits
      = (List.range N).map
          (fun i => if i = 0 then INITIAL_BACKOFF_MS
            else min (2 ^ i * INITIAL_BACKOFF_MS) maxBackoff) ∧
    (processMsg maxBackoff
        (List.replicate N (.err e, .sleepDone) ++ [(.ok ps, w)])
        INITIAL_BACKOFF_MS).backoff = INITIAL_BACKOFF_MS ∧
    ∀ rest : List (AttemptResult × WaitResult),
      (processMsg maxBackoff ((.err e, .sleepDone) :: rest)
          (processMsg maxBackoff
            (List.replicate N (.err e, .sleepDone) ++ [(.ok ps, w)])
            INITIAL_BACKOFF_MS).backoff).waits.head?
        = some INITIAL_BACKOFF_MS := by
  obtain ⟨hw, hb⟩ :=
    processMsg_replicate_waits maxBackoff e ps w he N INITIAL_BACKOFF_MS
  refine ⟨?_, hb, ?_⟩
  · rw [hw, backoffSeq_from_initial]
  · intro rest
    rw [hb]
    simp [processMsg, he]

/-- Witness for C7 with three retryable failures against a ceiling of
1500 ms: the waits are 500, 1000 and 1500 (2000 capped). -/
theorem C7_backoff_doubling_witness :
    (processMsg 1500
        (List.replicate 3 (.err (.Network sampleConnError), .sleepDone)
          ++ [(.ok ["p"], .sleepDone)]) INITIAL_BACKOFF_MS).waits
      = (List.range 3).map
          (fun i => if i = 0 then INITIAL_BACKOFF_MS
            else min (2 ^ i * INITIAL_BACKOFF_MS) 1500) :=
  (C7_backoff_doubling 1500 3 (.Network sampleConnError) ["p"] .sleepDone
    (by decide)).1

/-- C10: for any response whose status is not 202, with a non-blank
body that is valid UTF-8 and a content type that is not an event
stream, the transport returns success with that body, verbatim, as the
single payload — the status code (404, 500, …) never makes the exchange
a failure. -/
theorem C10_error_status_body_forwarded (status : Nat)
    (contentType body : String) (h202 : status ≠ 202)
    (hbody : strTrim body ≠ "")
    (hsse : rustContains contentType "text/event-stream" = false) :
    send_message (.response status contentType (some body)) = .ok [body] := by
  simp [send_message, h202, hbody, hsse]

/-- Witness for C10 at the client-error status 404 and the server-error
status 500. -/
theorem C10_error_status_body_forwarded_witness :
    send_message (.response 404 "application/json"
        (some "\x7b\"error\":\"not found\"\x7d"))
      = .ok ["\x7b\"error\":\"not found\"\x7d"] ∧
    send_message (.response 500 "" (some "oops")) = .ok ["oops"] :=
  ⟨C10_error_status_body_forwarded 404 "application/json"
      "\x7b\"error\":\"not found\"\x7d" (by decide) (by decide) (by decide),
   C10_error_status_body_forwarded 500 "" "oops"
      (by decide) (by decide) (by decide)⟩

end Bridge
